import Mathlib

/-!
Shallow embedding of the Floppy node-graph execution core
(`src/floppy/node.py`) and verification of its specification claims.

Python values that flow through slots are modelled by the inductive type
`Value`; Python truthiness (used by `if self.default:` and
`if self._Switch:`) is `Value.truthy`.  A method that mutates `self` and
may raise is modelled as a function returning the post-state paired with
an optional exception (`× Option Exc`); a raise located before any
mutation therefore returns the unchanged state, which mirrors the source
line by line.  `OrderedDict` fields are modelled as association lists
keyed by slot name, preserving insertion order.
-/

namespace Floppy

/-- Python values stored in slots: `None`, booleans, integers and strings
(the kinds of values the repository's nodes exchange). -/
inductive Value where
  | none : Value
  | bool : Bool → Value
  | int : Int → Value
  | str : String → Value
deriving DecidableEq, Repr

/-- Python truthiness, as used by `if self.default:` and `if self._Switch:`
in the source: `None`, `False`, `0` and `''` are falsy. -/
def Value.truthy : Value → Bool
  | Value.none => false
  | Value.bool b => b
  | Value.int n => n != 0
  | Value.str s => s != ""

/-- Python `int(...)`-compatible view used by `self._Iterations + 1`
(`bool` is an `int` subtype in Python). -/
def Value.asInt : Value → Option Int
  | Value.int n => some n
  | Value.bool b => some (if b then 1 else 0)
  | _ => Option.none

/-- Exceptions raised by the source: `InputNotAvailable`, `InputAlreadySet`,
a dictionary/attribute lookup failure, and a numeric type failure. -/
inductive Exc where
  | inputNotAvailable : Exc
  | inputAlreadySet : Exc
  | keyError : Exc
  | typeError : Exc
deriving DecidableEq, Repr

/-- `Info` (`node.py` line 15): a slot template / instance with `name`,
`varType`, `default` (Python default `''`), `valueSet`, `value`
(Python `None` initially) and `owner` (the owning node's id; `hints`,
`select` and the pin id are not read by any verified operation and are
omitted). -/
structure Info where
  name : String
  varType : String := "object"
  default : Value := Value.str ""
  valueSet : Bool := false
  value : Value := Value.none
  owner : String := ""
deriving DecidableEq, Repr

/-- `Info.reset` (line 44): `self.valueSet = False; self.value = None`. -/
def Info.reset (s : Info) : Info :=
  { s with valueSet := false, value := Value.none }

/-- `InputInfo.__call__(noException=False)` (lines 50-59): return `value`
if set, else `default` if truthy, else `None` when `noException`, else
raise `InputNotAvailable`. -/
def InputInfo.call (s : Info) (noException : Bool) : Except Exc Value :=
  if s.valueSet then Except.ok s.value
  else if s.default.truthy then Except.ok s.default
  else if noException then Except.ok Value.none
  else Except.error Exc.inputNotAvailable

/-- `InputInfo.set(value, override=False)` (lines 61-65): raise
`InputAlreadySet` if `valueSet` and not `override` (before any mutation),
else store the value and mark the slot set. -/
def InputInfo.set (s : Info) (v : Value) (override : Bool) : Info × Option Exc :=
  if s.valueSet && !override then (s, some Exc.inputAlreadySet)
  else ({ s with value := v, valueSet := true }, Option.none)

/-- `OutputInfo.__call__(value)` (lines 68-71): outputs always accept a
write. -/
def OutputInfo.call (s : Info) (v : Value) : Info :=
  { s with value := v, valueSet := true }

/-- Lookup in an ordered name-keyed slot mapping (`self.inputs[name]` /
`self.outputs[name]` on an `OrderedDict`). -/
def lookupInfo : List Info → String → Option Info
  | [], _ => Option.none
  | i :: rest, nm => if i.name = nm then some i else lookupInfo rest nm

/-- In-place update of the slot with the given name (mutation of the
`Info` object stored in the `OrderedDict`). -/
def updateInfo : List Info → String → (Info → Info) → List Info
  | [], _, _ => []
  | i :: rest, nm, f =>
    if i.name = nm then f i :: updateInfo rest nm f
    else i :: updateInfo rest nm f

theorem lookupInfo_name {l : List Info} {nm : String} {s : Info}
    (h : lookupInfo l nm = some s) : s.name = nm := by
  induction l with
  | nil => simp [lookupInfo] at h
  | cons i rest ih =>
    by_cases hi : i.name = nm
    · simp [lookupInfo, hi] at h
      simp [← h, hi]
    · simp [lookupInfo, hi] at h
      exact ih h

theorem lookupInfo_updateInfo_self (l : List Info) (nm : String)
    (f : Info → Info) (hf : ∀ i : Info, i.name = nm → (f i).name = i.name) :
    lookupInfo (updateInfo l nm f) nm = (lookupInfo l nm).map f := by
  induction l with
  | nil => simp [lookupInfo, updateInfo]
  | cons i rest ih =>
    by_cases hi : i.name = nm
    · simp [lookupInfo, updateInfo, hi, hf i hi]
    · simp [lookupInfo, updateInfo, hi, ih]

theorem lookupInfo_updateInfo_ne (l : List Info) (nm nm' : String)
    (f : Info → Info) (hf : ∀ i : Info, i.name = nm' → (f i).name = i.name)
    (h : nm ≠ nm') :
    lookupInfo (updateInfo l nm' f) nm = lookupInfo l nm := by
  induction l with
  | nil => simp [lookupInfo, updateInfo]
  | cons i rest ih =>
    by_cases hi : i.name = nm'
    · have hne : (f i).name ≠ nm := by
        rw [hf i hi, hi]; exact fun hc => h hc.symm
      have hne2 : ¬ (nm' = nm) := fun hc => h hc.symm
      simp [lookupInfo, updateInfo, hi, hne, hne2, ih]
    · simp [lookupInfo, updateInfo, hi, ih]

/-- C6: for every input slot (initially unset) and values `v`, `v2`:
`set(v)` without override succeeds and `get()` then returns `v`; a second
`set` without override raises `InputAlreadySet`; `set(v2, override=true)`
on the already-set slot succeeds, after which `get()` returns `v2`. -/
theorem input_set_get_roundtrip (s : Info) (v v2 : Value)
    (h : s.valueSet = false) :
    (InputInfo.set s v false).2 = Option.none ∧
    InputInfo.call (InputInfo.set s v false).1 false = Except.ok v ∧
    (InputInfo.set (InputInfo.set s v false).1 v2 false).2
      = some Exc.inputAlreadySet ∧
    (InputInfo.set (InputInfo.set s v false).1 v2 true).2 = Option.none ∧
    InputInfo.call (InputInfo.set (InputInfo.set s v false).1 v2 true).1 false
      = Except.ok v2 := by
  simp [InputInfo.set, InputInfo.call, h]

/-- Closed instance of `input_set_get_roundtrip` at a concrete slot and
concrete values. -/
theorem input_set_get_roundtrip_app :
    (InputInfo.set { name := "X" } (Value.int 5) false).2 = Option.none ∧
    InputInfo.call (InputInfo.set { name := "X" } (Value.int 5) false).1 false
      = Except.ok (Value.int 5) ∧
    (InputInfo.set (InputInfo.set { name := "X" } (Value.int 5) false).1
      (Value.int 7) false).2 = some Exc.inputAlreadySet ∧
    (InputInfo.set (InputInfo.set { name := "X" } (Value.int 5) false).1
      (Value.int 7) true).2 = Option.none ∧
    InputInfo.call (InputInfo.set (InputInfo.set { name := "X" } (Value.int 5) false).1
      (Value.int 7) true).1 false = Except.ok (Value.int 7) :=
  input_set_get_roundtrip { name := "X" } (Value.int 5) (Value.int 7) (by decide)

/-- C7: for every input slot with `hasValue = false`: with a truthy
("non-empty") default, `get()` returns the default without raising; with
a falsy ("empty") default, `get()` raises `InputNotAvailable` while
`get(allowMissing=true)` returns the no-value marker `None`. -/
theorem input_get_default_behavior (s : Info) (h : s.valueSet = false) :
    (s.default.truthy = true → InputInfo.call s false = Except.ok s.default) ∧
    (s.default.truthy = false →
      InputInfo.call s false = Except.error Exc.inputNotAvailable ∧
      InputInfo.call s true = Except.ok Value.none) := by
  constructor
  · intro hd; simp [InputInfo.call, h, hd]
  · intro hd; simp [InputInfo.call, h, hd]

/-- Closed instance of `input_get_default_behavior` on two concrete slots,
one with a non-empty default and one with an empty default. -/
theorem input_get_default_behavior_app :
    (InputInfo.call { name := "A", default := Value.str "d" } false
      = Except.ok (Value.str "d")) ∧
    (InputInfo.call { name := "B" } false
      = Except.error Exc.inputNotAvailable ∧
     InputInfo.call { name := "B" } true = Except.ok Value.none) :=
  ⟨(input_get_default_behavior { name := "A", default := Value.str "d" }
      (by decide)).1 (by decide),
   (input_get_default_behavior { name := "B" } (by decide)).2 (by decide)⟩

/-- C9: for every slot, `reset()` clears `hasValue` and the stored value,
leaves the declared default unchanged, and is idempotent (a second
`reset()` on an already-reset slot is a no-op that raises no error). -/
theorem slot_reset_spec (s : Info) :
    (Info.reset s).valueSet = false ∧
    (Info.reset s).value = Value.none ∧
    (Info.reset s).default = s.default ∧
    Info.reset (Info.reset s) = Info.reset s := by
  simp [Info.reset]

/-- C10: for every input slot whose `hasValue` is already true,
`set(v, override=false)` raises `InputAlreadySet` and returns the slot
completely unchanged (the raise precedes every mutation in the source). -/
theorem input_set_atomic_failure (s : Info) (v : Value)
    (h : s.valueSet = true) :
    InputInfo.set s v false = (s, some Exc.inputAlreadySet) := by
  simp [InputInfo.set, h]

/-- `Node` (`node.py` line 127): ordered input and output slot mappings,
the caller-supplied id, and the `inProgress` counter (the spec's
`executionsRemaining`, set to 1 in `Node.__init__`).  `waiting` is the
flag added by `ControlNode.__init__`; plain nodes never read it.  The
graph back-reference and the pin mappings are held by the external graph
collaborator and are not needed by the verified operations. -/
structure Node where
  id : String
  inputs : List Info
  outputs : List Info
  inProgress : Int := 1
  waiting : Bool := false
deriving DecidableEq, Repr

/-- One record produced by the Graph collaborator's connection queries
(`getConnectionsFrom` / `getConnectionsOfOutput`): the name of the
source output slot, the id of the destination node and the name of the
destination input slot. -/
structure Conn where
  outputName : String
  inputNode : String
  inputName : String
deriving DecidableEq, Repr

/-- The mutable heap of successor nodes reachable through connections,
keyed by node id (Python connections reference the node objects
directly; updating an entry models mutating that object). -/
abbrev Store := List (String × Node)

def storeGet : Store → String → Option Node
  | [], _ => Option.none
  | p :: rest, i => if p.1 = i then some p.2 else storeGet rest i

def storeSet : Store → String → Node → Store
  | [], _, _ => []
  | p :: rest, i, n =>
    if p.1 = i then (p.1, n) :: storeSet rest i n
    else p :: storeSet rest i n

theorem storeGet_storeSet_ne (st : Store) (i j : String) (n : Node)
    (h : i ≠ j) : storeGet (storeSet st j n) i = storeGet st i := by
  have hji : ¬ (j = i) := fun hc => h hc.symm
  induction st with
  | nil => rfl
  | cons p rest ih =>
    by_cases hp : p.1 = j
    · simp [storeSet, storeGet, hp, hji, ih]
    · by_cases hpi : p.1 = i
      · simp [storeSet, storeGet, hp, hpi, h, ih]
      · simp [storeSet, storeGet, hp, hpi, ih]

theorem storeGet_storeSet_self (st : Store) (i : String) (n : Node) :
    storeGet (storeSet st i n) i = (storeGet st i).map (fun _ => n) := by
  induction st with
  | nil => rfl
  | cons p rest ih =>
    by_cases hp : p.1 = i
    · simp [storeSet, storeGet, hp]
    · simp [storeSet, storeGet, hp, ih]

/-- `Node.setInput` (line 210): `self.inputs[inputName].set(value, override)`.
A missing name is a `KeyError`; on `InputAlreadySet` the slot (hence the
node) is unchanged. -/
def Node.setInput (n : Node) (inputName : String) (v : Value)
    (override : Bool) : Node × Option Exc :=
  match lookupInfo n.inputs inputName with
  | Option.none => (n, some Exc.keyError)
  | some s =>
    let r := InputInfo.set s v override
    ({ n with inputs := updateInfo n.inputs inputName (fun _ => r.1) }, r.2)

/-- `Node.check` (lines 213-219): truthy `inProgress` and every input's
`valueSet` flag; the Python fall-through `None` for a falsy `inProgress`
is the boolean `false`. -/
def Node.check (n : Node) : Bool :=
  if n.inProgress ≠ 0 then n.inputs.all (fun i => i.valueSet) else false

/-- `Node.prepare` (lines 221-231): `self.inProgress = 1` and reset every
input slot. -/
def Node.prepare (n : Node) : Node :=
  { n with inProgress := 1, inputs := n.inputs.map Info.reset }

/-- `self._Name` attribute read for a declared input (`__getattr__`,
line 241, resolving to `self.inputs[name]()`). -/
def Node.readInput (n : Node) (nm : String) : Except Exc Value :=
  match lookupInfo n.inputs nm with
  | Option.none => Except.error Exc.keyError
  | some s => InputInfo.call s false

/-- `self._Name(value)` write to a declared output (`__getattr__`
resolving to the `OutputInfo` object, then `OutputInfo.__call__`). -/
def Node.writeOutput (n : Node) (nm : String) (v : Value) : Node × Option Exc :=
  match lookupInfo n.outputs nm with
  | Option.none => (n, some Exc.keyError)
  | some _ =>
    ({ n with outputs := updateInfo n.outputs nm (fun o => OutputInfo.call o v) },
     Option.none)

/-- The propagation loop shared by every `notify` implementation:
for each connection, look up the source output slot and the destination
node, apply the per-connection body `step`, and write the destination
back; a raise aborts the remaining iterations.  Each `notify` supplies
the body matching its own Python loop body. -/
def propLoop (outs : List Info) (step : Info → Node → String → Node × Option Exc) :
    List Conn → Store → Store × Option Exc
  | [], st => (st, Option.none)
  | con :: rest, st =>
    match lookupInfo outs con.outputName with
    | Option.none => (st, some Exc.keyError)
    | some out =>
      match storeGet st con.inputNode with
      | Option.none => (st, some Exc.keyError)
      | some dest =>
        match step out dest con.inputName with
        | (dest', some e) => (storeSet st con.inputNode dest', some e)
        | (dest', Option.none) => propLoop outs step rest (storeSet st con.inputNode dest')

/-- Loop body of base `Node.notify` (lines 199-206): push the output's
value, or its default when the output was never written, via the
destination slot's `set` without override. -/
def notifyStep (out : Info) (dest : Node) (inp : String) : Node × Option Exc :=
  Node.setInput dest inp (if out.valueSet then out.value else out.default) false

/-- Loop body of `SwitchNode.notify` and of the `Final` branch of
`Loop.notify`: push the output's `value` field via `set` without
override. -/
def pushValueStep (out : Info) (dest : Node) (inp : String) : Node × Option Exc :=
  Node.setInput dest inp out.value false

/-- Loop body of the `LoopBody` branch of `Loop.notify` (lines 453-459):
`nextNode.prepare()` then `nextNode.setInput(..., override=True)`. -/
def loopBodyStep (out : Info) (dest : Node) (inp : String) : Node × Option Exc :=
  Node.setInput (Node.prepare dest) inp out.value true

/-- Ids not targeted by any processed connection keep their store entry. -/
theorem propLoop_get_notMem (outs : List Info)
    (step : Info → Node → String → Node × Option Exc) :
    ∀ (conns : List Conn) (st : Store) (i : String),
      i ∉ conns.map Conn.inputNode →
      storeGet (propLoop outs step conns st).1 i = storeGet st i := by
  intro conns
  induction conns with
  | nil => intro st i _; rfl
  | cons con rest ih =>
    intro st i h
    simp only [List.map_cons, List.mem_cons] at h
    push_neg at h
    obtain ⟨hne, hrest⟩ := h
    simp only [propLoop]
    cases hlk : lookupInfo outs con.outputName with
    | none => rfl
    | some out =>
      dsimp only
      cases hget : storeGet st con.inputNode with
      | none => rfl
      | some dest =>
        dsimp only
        cases hstep : step out dest con.inputName with
        | mk dest' e =>
          cases e with
          | none =>
            dsimp only
            rw [ih (storeSet st con.inputNode dest') i hrest,
                storeGet_storeSet_ne _ _ _ _ hne]
          | some err =>
            dsimp only
            exact storeGet_storeSet_ne _ _ _ _ hne

/-- When the whole loop succeeds and destination ids are distinct, the
destination of a processed connection ends exactly as `step` leaves it. -/
theorem propLoop_get_mem (outs : List Info)
    (step : Info → Node → String → Node × Option Exc)
    (con : Conn) (d : Node) (out : Info)
    (hout : lookupInfo outs con.outputName = some out) :
    ∀ (conns : List Conn) (st : Store),
      (conns.map Conn.inputNode).Nodup →
      con ∈ conns →
      storeGet st con.inputNode = some d →
      (propLoop outs step conns st).2 = Option.none →
      storeGet (propLoop outs step conns st).1 con.inputNode
        = some (step out d con.inputName).1 := by
  intro conns
  induction conns with
  | nil => intro st _ hcon; simp at hcon
  | cons c rest ih =>
    intro st hnd hcon hd hok
    simp only [List.map_cons, List.nodup_cons] at hnd
    obtain ⟨hnotin, hndrest⟩ := hnd
    simp only [propLoop] at hok ⊢
    rcases List.mem_cons.mp hcon with hceq | hcrest
    · subst hceq
      rw [hout] at hok ⊢
      dsimp only at hok ⊢
      rw [hd] at hok ⊢
      dsimp only at hok ⊢
      cases hstep : step out d con.inputName with
      | mk dest' e =>
        rw [hstep] at hok
        cases e with
        | none =>
          dsimp only at hok ⊢
          rw [propLoop_get_notMem outs step rest
                (storeSet st con.inputNode dest') con.inputNode hnotin,
              storeGet_storeSet_self, hd]
          rfl
        | some err =>
          dsimp only at hok
          simp at hok
    · have hne : con.inputNode ≠ c.inputNode := by
        intro hc
        exact hnotin (hc ▸ List.mem_map_of_mem Conn.inputNode hcrest)
      cases hlk : lookupInfo outs c.outputName with
      | none =>
        rw [hlk] at hok
        dsimp only at hok
        simp at hok
      | some outc =>
        rw [hlk] at hok
        dsimp only at hok ⊢
        cases hget : storeGet st c.inputNode with
        | none =>
          rw [hget] at hok
          dsimp only at hok
          simp at hok
        | some destc =>
          rw [hget] at hok
          dsimp only at hok ⊢
          cases hstep : step outc destc c.inputName with
          | mk dest' e =>
            rw [hstep] at hok
            cases e with
            | none =>
              dsimp only at hok ⊢
              have hd' : storeGet (storeSet st c.inputNode dest') con.inputNode
                  = some d := by
                rw [storeGet_storeSet_ne _ _ _ _ hne]; exact hd
              exact ih (storeSet st c.inputNode dest') hndrest hcrest hd' hok
            | some err =>
              dsimp only at hok
              simp at hok

/-- `Node.notify` (lines 193-208): for every connection from this node
(the graph's `getConnectionsFrom`), push the output's value or default
into the destination input; then reset every own input slot and
decrement `inProgress`.  A raise inside the loop aborts the method, so
the reset and decrement do not happen. -/
def Node.notify (self : Node) (g : List Conn) (store : Store) :
    (Node × Store) × Option Exc :=
  match propLoop self.outputs notifyStep g store with
  | (st', some e) => ((self, st'), some e)
  | (st', Option.none) =>
    (({ self with inputs := self.inputs.map Info.reset,
                  inProgress := self.inProgress - 1 }, st'), Option.none)

/-- C1: for every node following the base protocol (hence with a
non-negative counter), `check()` returns true only if
`executionsRemaining > 0` and every declared input has a value available
(explicitly set, or via a non-empty default); and `prepare()` followed
immediately by `check()` on a node with at least one input lacking a
default returns false. -/
theorem check_admission_gate :
    (∀ n : Node, 0 ≤ n.inProgress → Node.check n = true →
      0 < n.inProgress ∧
      ∀ i ∈ n.inputs, i.valueSet = true ∨ i.default.truthy = true) ∧
    (∀ n : Node, (∃ i ∈ n.inputs, i.default.truthy = false) →
      Node.check (Node.prepare n) = false) := by
  constructor
  · intro n h0 hc
    unfold Node.check at hc
    by_cases hz : n.inProgress ≠ 0
    · rw [if_pos hz] at hc
      refine ⟨by omega, ?_⟩
      intro i hi
      exact Or.inl (List.all_eq_true.mp hc i hi)
    · rw [if_neg hz] at hc
      exact absurd hc (by simp)
  · rintro n ⟨i, hi, -⟩
    have hmem : Info.reset i ∈ n.inputs.map Info.reset :=
      List.mem_map_of_mem Info.reset hi
    have hval : (Info.reset i).valueSet = false := rfl
    unfold Node.check Node.prepare
    dsimp only
    rw [if_pos (by norm_num)]
    rw [List.all_eq_false]
    exact ⟨Info.reset i, hmem, by rw [hval]; simp⟩

/-- Closed instance of `check_admission_gate`: a node with one explicitly
set input passes the gate; a fresh prepared node with an input lacking a
default fails it. -/
theorem check_admission_gate_app :
    (0 < (Node.mk "R" [{ name := "X", valueSet := true, value := Value.int 5 }] [] 1 false).inProgress ∧
     ∀ i ∈ (Node.mk "R" [{ name := "X", valueSet := true, value := Value.int 5 }] [] 1 false).inputs,
       i.valueSet = true ∨ i.default.truthy = true) ∧
    Node.check (Node.prepare (Node.mk "N" [{ name := "X" }] [] 1 false)) = false :=
  ⟨check_admission_gate.1
      (Node.mk "R" [{ name := "X", valueSet := true, value := Value.int 5 }] [] 1 false)
      (by decide) (by decide),
   check_admission_gate.2 (Node.mk "N" [{ name := "X" }] [] 1 false)
      ⟨{ name := "X" }, by decide, by decide⟩⟩

/-- C5: base `Node.notify` pushes, for every outgoing connection, the
output slot's value — or its default when the output was never written —
into the destination's input via that slot's `set`; on success it resets
every own input slot and decrements `inProgress` by exactly 1. -/
theorem node_notify_propagates (self : Node) (g : List Conn) (store : Store)
    (con : Conn) (d : Node) (out : Info)
    (hnd : (g.map Conn.inputNode).Nodup)
    (hcon : con ∈ g)
    (hd : storeGet store con.inputNode = some d)
    (hout : lookupInfo self.outputs con.outputName = some out)
    (hok : (Node.notify self g store).2 = Option.none) :
    storeGet (Node.notify self g store).1.2 con.inputNode
      = some (Node.setInput d con.inputName
          (if out.valueSet then out.value else out.default) false).1 ∧
    (Node.notify self g store).1.1.inputs = self.inputs.map Info.reset ∧
    (∀ i ∈ (Node.notify self g store).1.1.inputs, i.valueSet = false) ∧
    (Node.notify self g store).1.1.inProgress = self.inProgress - 1 := by
  cases hprop : propLoop self.outputs notifyStep g store with
  | mk st' e =>
    cases e with
    | some err =>
      exfalso
      unfold Node.notify at hok
      rw [hprop] at hok
      dsimp only at hok
      simp at hok
    | none =>
      have hmem := propLoop_get_mem self.outputs notifyStep con d out hout g store
        hnd hcon hd (by rw [hprop])
      rw [hprop] at hmem
      dsimp only at hmem
      unfold Node.notify
      rw [hprop]
      dsimp only
      refine ⟨hmem, rfl, ?_, rfl⟩
      intro i hi
      obtain ⟨j, hj, rfl⟩ := List.mem_map.mp hi
      rfl

/-- Closed instance of `node_notify_propagates`: node `N` with output
`Y = 10` connected to `M.Z`; after `notify`, `M`'s input `Z` holds 10,
`N`'s input is consumed and its counter dropped from 1 to 0. -/
theorem node_notify_propagates_app :
    storeGet (Node.notify
        (Node.mk "N"
          [{ name := "X", valueSet := true, value := Value.int 5 }]
          [{ name := "Y", valueSet := true, value := Value.int 10 }] 1 false)
        [Conn.mk "Y" "M" "Z"]
        [("M", Node.mk "M" [{ name := "Z" }] [] 1 false)]).1.2 (Conn.mk "Y" "M" "Z").inputNode
      = some (Node.setInput (Node.mk "M" [{ name := "Z" }] [] 1 false)
          (Conn.mk "Y" "M" "Z").inputName
          (if ({ name := "Y", valueSet := true, value := Value.int 10 } : Info).valueSet
           then ({ name := "Y", valueSet := true, value := Value.int 10 } : Info).value
           else ({ name := "Y", valueSet := true, value := Value.int 10 } : Info).default) false).1 ∧
    (Node.notify
        (Node.mk "N"
          [{ name := "X", valueSet := true, value := Value.int 5 }]
          [{ name := "Y", valueSet := true, value := Value.int 10 }] 1 false)
        [Conn.mk "Y" "M" "Z"]
        [("M", Node.mk "M" [{ name := "Z" }] [] 1 false)]).1.1.inputs
      = (Node.mk "N"
          [{ name := "X", valueSet := true, value := Value.int 5 }]
          [{ name := "Y", valueSet := true, value := Value.int 10 }] 1 false).inputs.map Info.reset ∧
    (∀ i ∈ (Node.notify
        (Node.mk "N"
          [{ name := "X", valueSet := true, value := Value.int 5 }]
          [{ name := "Y", valueSet := true, value := Value.int 10 }] 1 false)
        [Conn.mk "Y" "M" "Z"]
        [("M", Node.mk "M" [{ name := "Z" }] [] 1 false)]).1.1.inputs, i.valueSet = false) ∧
    (Node.notify
        (Node.mk "N"
          [{ name := "X", valueSet := true, value := Value.int 5 }]
          [{ name := "Y", valueSet := true, value := Value.int 10 }] 1 false)
        [Conn.mk "Y" "M" "Z"]
        [("M", Node.mk "M" [{ name := "Z" }] [] 1 false)]).1.1.inProgress
      = (Node.mk "N"
          [{ name := "X", valueSet := true, value := Value.int 5 }]
          [{ name := "Y", valueSet := true, value := Value.int 10 }] 1 false).inProgress - 1 :=
  node_notify_propagates
    (Node.mk "N"
      [{ name := "X", valueSet := true, value := Value.int 5 }]
      [{ name := "Y", valueSet := true, value := Value.int 10 }] 1 false)
    [Conn.mk "Y" "M" "Z"]
    [("M", Node.mk "M" [{ name := "Z" }] [] 1 false)]
    (Conn.mk "Y" "M" "Z")
    (Node.mk "M" [{ name := "Z" }] [] 1 false)
    { name := "Y", valueSet := true, value := Value.int 10 }
    (by decide) (by decide) (by decide) (by decide) (by decide)

/-- The graph's `getConnectionsOfOutput`: the connections leaving one
specific output of the node. -/
def connsOfOutput (g : List Conn) (nm : String) : List Conn :=
  g.filter (fun c => c.outputName = nm)

theorem connsOfOutput_outputName {g : List Conn} {nm : String} {con : Conn}
    (h : con ∈ connsOfOutput g nm) : con.outputName = nm := by
  have h2 := (List.mem_filter.mp h).2
  simpa using h2

/-- `SwitchNode.notify` (lines 361-378): `self.inProgress = 0` first;
in the dispatch phase (`waiting` false) read `Switch` and propagate the
selected output (`True` if truthy else `False`) by pushing its `value`
to each connected successor, then set `waiting`; in the rejoin phase
propagate `Final` and clear `waiting`. -/
def SwitchNode.notify (self : Node) (g : List Conn) (store : Store) :
    (Node × Store) × Option Exc :=
  let self1 : Node := { self with inProgress := 0 }
  if self1.waiting = true then
    match lookupInfo self1.outputs "Final" with
    | Option.none => ((self1, store), some Exc.keyError)
    | some _ =>
      match propLoop self1.outputs pushValueStep (connsOfOutput g "Final") store with
      | (st', some e) => ((self1, st'), some e)
      | (st', Option.none) => (({ self1 with waiting := false }, st'), Option.none)
  else
    match Node.readInput self1 "Switch" with
    | Except.error e => ((self1, store), some e)
    | Except.ok sw =>
      match lookupInfo self1.outputs (if sw.truthy then "True" else "False") with
      | Option.none => ((self1, store), some Exc.keyError)
      | some _ =>
        match propLoop self1.outputs pushValueStep
            (connsOfOutput g (if sw.truthy then "True" else "False")) store with
        | (st', some e) => ((self1, st'), some e)
        | (st', Option.none) => (({ self1 with waiting := true }, st'), Option.none)

/-- The concrete switch node used to exhibit C2's failure: dispatch phase,
`Switch = true`, `Start = 7`, counter 1. -/
def swNode : Node :=
  Node.mk "S"
    [{ name := "Start", valueSet := true, value := Value.int 7 },
     { name := "Control" },
     { name := "Switch", varType := "bool", valueSet := true, value := Value.bool true }]
    [{ name := "Final" }, { name := "True" }, { name := "False" }]
    1 false

/-- C2 counterexample: a dispatch-phase `SwitchNode.notify` does not leave
`executionsRemaining` unchanged — the source sets `self.inProgress = 0`
as its first statement, so the counter drops from 1 to 0. -/
theorem switch_notify_dispatch_changes_counter :
    swNode.waiting = false ∧ swNode.inProgress = 1 ∧
    (SwitchNode.notify swNode [] []).2 = Option.none ∧
    (SwitchNode.notify swNode [] []).1.1.inProgress = 0 ∧
    ¬ (SwitchNode.notify swNode [] []).1.1.inProgress = swNode.inProgress := by
  decide

/-- C2 (amended): in the dispatch phase (`waiting = false`),
`SwitchNode.notify` propagates only the selected branch's output
(`True` when input `Switch` is truthy, `False` otherwise) to that
output's connected successors, does not propagate the non-selected
output, sets `waiting` to true, and sets `executionsRemaining` to 0. -/
theorem switch_notify_dispatch (self : Node) (g : List Conn) (store : Store)
    (si outSel : Info) (sel : String) (con : Conn) (d : Node)
    (hw : self.waiting = false)
    (hsi : lookupInfo self.inputs "Switch" = some si)
    (hset : si.valueSet = true)
    (hsel : sel = if si.value.truthy then "True" else "False")
    (hout : lookupInfo self.outputs sel = some outSel)
    (hnd : ((connsOfOutput g sel).map Conn.inputNode).Nodup)
    (hok : (SwitchNode.notify self g store).2 = Option.none) :
    (SwitchNode.notify self g store).1.1.waiting = true ∧
    (SwitchNode.notify self g store).1.1.inProgress = 0 ∧
    (con ∈ connsOfOutput g sel → storeGet store con.inputNode = some d →
      storeGet (SwitchNode.notify self g store).1.2 con.inputNode
        = some (Node.setInput d con.inputName outSel.value false).1) ∧
    (∀ nid, nid ∉ (connsOfOutput g sel).map Conn.inputNode →
      storeGet (SwitchNode.notify self g store).1.2 nid = storeGet store nid) := by
  have hsw : Node.readInput
      (Node.mk self.id self.inputs self.outputs 0 false) "Switch"
      = Except.ok si.value := by
    unfold Node.readInput
    dsimp only
    rw [hsi]
    dsimp only
    unfold InputInfo.call
    rw [hset]
    simp
  unfold SwitchNode.notify at hok ⊢
  dsimp only at hok ⊢
  rw [hw] at hok ⊢
  rw [if_neg Bool.false_ne_true] at hok ⊢
  rw [hsw] at hok ⊢
  dsimp only at hok ⊢
  rw [← hsel] at hok ⊢
  rw [hout] at hok ⊢
  dsimp only at hok ⊢
  cases hprop : propLoop self.outputs pushValueStep (connsOfOutput g sel) store with
  | mk st' e =>
    rw [hprop] at hok
    cases e with
    | some err =>
      exfalso
      dsimp only at hok
      simp at hok
    | none =>
      dsimp only at hok ⊢
      refine ⟨rfl, rfl, ?_, ?_⟩
      · intro hcon hd
        have houtc : lookupInfo self.outputs con.outputName = some outSel := by
          rw [connsOfOutput_outputName hcon]; exact hout
        have hmem := propLoop_get_mem self.outputs pushValueStep con d outSel houtc
          (connsOfOutput g sel) store hnd hcon hd (by rw [hprop])
        rw [hprop] at hmem
        dsimp only at hmem
        exact hmem
      · intro nid hnid
        have huntouched := propLoop_get_notMem self.outputs pushValueStep
          (connsOfOutput g sel) store nid hnid
        rw [hprop] at huntouched
        dsimp only at huntouched
        exact huntouched

/-- Closed instance of `switch_notify_dispatch`: `Switch = true`, both
branch outputs connected; only the `True`-branch successor `T` receives
the value, the `False`-branch successor `F` is untouched. -/
theorem switch_notify_dispatch_app :
    (SwitchNode.notify
        (Node.mk "S"
          [{ name := "Start", valueSet := true, value := Value.int 7 },
           { name := "Control" },
           { name := "Switch", varType := "bool", valueSet := true, value := Value.bool true }]
          [{ name := "Final" },
           { name := "True", valueSet := true, value := Value.int 7 },
           { name := "False" }] 1 false)
        [Conn.mk "True" "T" "In", Conn.mk "False" "F" "In"]
        [("T", Node.mk "T" [{ name := "In" }] [] 1 false),
         ("F", Node.mk "F" [{ name := "In" }] [] 1 false)]).1.1.waiting = true ∧
    (SwitchNode.notify
        (Node.mk "S"
          [{ name := "Start", valueSet := true, value := Value.int 7 },
           { name := "Control" },
           { name := "Switch", varType := "bool", valueSet := true, value := Value.bool true }]
          [{ name := "Final" },
           { name := "True", valueSet := true, value := Value.int 7 },
           { name := "False" }] 1 false)
        [Conn.mk "True" "T" "In", Conn.mk "False" "F" "In"]
        [("T", Node.mk "T" [{ name := "In" }] [] 1 false),
         ("F", Node.mk "F" [{ name := "In" }] [] 1 false)]).1.1.inProgress = 0 ∧
    (Conn.mk "True" "T" "In"
        ∈ connsOfOutput [Conn.mk "True" "T" "In", Conn.mk "False" "F" "In"] "True" →
     storeGet [("T", Node.mk "T" [{ name := "In" }] [] 1 false),
               ("F", Node.mk "F" [{ name := "In" }] [] 1 false)]
        (Conn.mk "True" "T" "In").inputNode
        = some (Node.mk "T" [{ name := "In" }] [] 1 false) →
     storeGet (SwitchNode.notify
        (Node.mk "S"
          [{ name := "Start", valueSet := true, value := Value.int 7 },
           { name := "Control" },
           { name := "Switch", varType := "bool", valueSet := true, value := Value.bool true }]
          [{ name := "Final" },
           { name := "True", valueSet := true, value := Value.int 7 },
           { name := "False" }] 1 false)
        [Conn.mk "True" "T" "In", Conn.mk "False" "F" "In"]
        [("T", Node.mk "T" [{ name := "In" }] [] 1 false),
         ("F", Node.mk "F" [{ name := "In" }] [] 1 false)]).1.2
        (Conn.mk "True" "T" "In").inputNode
        = some (Node.setInput (Node.mk "T" [{ name := "In" }] [] 1 false)
            (Conn.mk "True" "T" "In").inputName
            ({ name := "True", valueSet := true, value := Value.int 7 } : Info).value
            false).1) ∧
    (∀ nid, nid ∉ (connsOfOutput [Conn.mk "True" "T" "In", Conn.mk "False" "F" "In"]
          "True").map Conn.inputNode →
      storeGet (SwitchNode.notify
        (Node.mk "S"
          [{ name := "Start", valueSet := true, value := Value.int 7 },
           { name := "Control" },
           { name := "Switch", varType := "bool", valueSet := true, value := Value.bool true }]
          [{ name := "Final" },
           { name := "True", valueSet := true, value := Value.int 7 },
           { name := "False" }] 1 false)
        [Conn.mk "True" "T" "In", Conn.mk "False" "F" "In"]
        [("T", Node.mk "T" [{ name := "In" }] [] 1 false),
         ("F", Node.mk "F" [{ name := "In" }] [] 1 false)]).1.2 nid
        = storeGet [("T", Node.mk "T" [{ name := "In" }] [] 1 false),
                    ("F", Node.mk "F" [{ name := "In" }] [] 1 false)] nid) :=
  switch_notify_dispatch
    (Node.mk "S"
      [{ name := "Start", valueSet := true, value := Value.int 7 },
       { name := "Control" },
       { name := "Switch", varType := "bool", valueSet := true, value := Value.bool true }]
      [{ name := "Final" },
       { name := "True", valueSet := true, value := Value.int 7 },
       { name := "False" }] 1 false)
    [Conn.mk "True" "T" "In", Conn.mk "False" "F" "In"]
    [("T", Node.mk "T" [{ name := "In" }] [] 1 false),
     ("F", Node.mk "F" [{ name := "In" }] [] 1 false)]
    { name := "Switch", varType := "bool", valueSet := true, value := Value.bool true }
    { name := "True", valueSet := true, value := Value.int 7 }
    "True" (Conn.mk "True" "T" "In")
    (Node.mk "T" [{ name := "In" }] [] 1 false)
    (by decide) (by decide) (by decide) (by decide) (by decide) (by decide) (by decide)

/-- `Loop.run` (lines 439-449): try to re-emit `Control` on `LoopBody`
(when `inProgress > 1`) or on `Final` (otherwise); when reading `Control`
raises `InputNotAvailable`, the handler sets
`inProgress = Iterations + 1` and emits `Start`'s value on `LoopBody`
(the uncaught errors of the handler propagate). -/
def Loop.run (self : Node) : Node × Option Exc :=
  let attempt : Except Exc Node :=
    if self.inProgress > 1 then
      match Node.readInput self "Control" with
      | Except.error e => Except.error e
      | Except.ok c =>
        match Node.writeOutput self "LoopBody" c with
        | (n, Option.none) => Except.ok n
        | (_, some e) => Except.error e
    else
      match Node.readInput self "Control" with
      | Except.error e => Except.error e
      | Except.ok c =>
        match Node.writeOutput self "Final" c with
        | (n, Option.none) => Except.ok n
        | (_, some e) => Except.error e
  match attempt with
  | Except.ok n => (n, Option.none)
  | Except.error Exc.inputNotAvailable =>
    match Node.readInput self "Iterations" with
    | Except.error e => (self, some e)
    | Except.ok itv =>
      match itv.asInt with
      | Option.none => (self, some Exc.typeError)
      | some k =>
        match Node.readInput ({ self with inProgress := k + 1 } : Node) "Start" with
        | Except.error e => (({ self with inProgress := k + 1 } : Node), some e)
        | Except.ok sv =>
          Node.writeOutput ({ self with inProgress := k + 1 } : Node) "LoopBody" sv
  | Except.error e => (self, some e)

/-- `Loop.notify` (lines 451-469): while `inProgress > 1`, for every
connection of output `LoopBody`, `prepare()` the successor then
force-set (`override=True`) its connected input with `LoopBody`'s value;
otherwise propagate `Final` with a plain `set`.  On success decrement
`inProgress` and reset the `Control` input slot. -/
def Loop.notify (self : Node) (g : List Conn) (store : Store) :
    (Node × Store) × Option Exc :=
  let branch : Store × Option Exc :=
    if self.inProgress > 1 then
      match lookupInfo self.outputs "LoopBody" with
      | Option.none => (store, some Exc.keyError)
      | some _ => propLoop self.outputs loopBodyStep (connsOfOutput g "LoopBody") store
    else
      match lookupInfo self.outputs "Final" with
      | Option.none => (store, some Exc.keyError)
      | some _ => propLoop self.outputs pushValueStep (connsOfOutput g "Final") store
  match branch with
  | (st', some e) => ((self, st'), some e)
  | (st', Option.none) =>
    (({ self with inProgress := self.inProgress - 1,
                  inputs := updateInfo self.inputs "Control" Info.reset }, st'),
     Option.none)

/-- C3: `Loop.run` by phase: on the first run, when reading `Control`
fails for lack of value and default, it sets
`executionsRemaining = Iterations + 1` and writes `Start`'s value to
output `LoopBody`; with `executionsRemaining > 1` and `Control` set, it
writes `Control`'s value to `LoopBody`; with `executionsRemaining = 1`
and `Control` set, it writes `Control`'s value to `Final` and does not
write `LoopBody`. -/
theorem loop_run_phases :
    (∀ (n : Node) (ctl its stt lb : Info) (k : Int),
      n.inProgress = 1 →
      lookupInfo n.inputs "Control" = some ctl →
      ctl.valueSet = false → ctl.default.truthy = false →
      lookupInfo n.inputs "Iterations" = some its →
      its.valueSet = true → its.value = Value.int k →
      lookupInfo n.inputs "Start" = some stt →
      stt.valueSet = true →
      lookupInfo n.outputs "LoopBody" = some lb →
      (Loop.run n).2 = Option.none ∧
      (Loop.run n).1.inProgress = k + 1 ∧
      lookupInfo (Loop.run n).1.outputs "LoopBody"
        = some (OutputInfo.call lb stt.value)) ∧
    (∀ (n : Node) (ctl lb : Info),
      n.inProgress > 1 →
      lookupInfo n.inputs "Control" = some ctl →
      ctl.valueSet = true →
      lookupInfo n.outputs "LoopBody" = some lb →
      (Loop.run n).2 = Option.none ∧
      (Loop.run n).1.inProgress = n.inProgress ∧
      lookupInfo (Loop.run n).1.outputs "LoopBody"
        = some (OutputInfo.call lb ctl.value)) ∧
    (∀ (n : Node) (ctl fin : Info),
      n.inProgress = 1 →
      lookupInfo n.inputs "Control" = some ctl →
      ctl.valueSet = true →
      lookupInfo n.outputs "Final" = some fin →
      (Loop.run n).2 = Option.none ∧
      (Loop.run n).1.inProgress = n.inProgress ∧
      lookupInfo (Loop.run n).1.outputs "Final"
        = some (OutputInfo.call fin ctl.value) ∧
      lookupInfo (Loop.run n).1.outputs "LoopBody"
        = lookupInfo n.outputs "LoopBody") := by
  refine ⟨?_, ?_, ?_⟩
  · intro n ctl its stt lb k h1 hctl hcs hcd hits his hiv hstt hss hlb
    have hrc : Node.readInput n "Control" = Except.error Exc.inputNotAvailable := by
      simp [Node.readInput, hctl, InputInfo.call, hcs, hcd]
    have hri : Node.readInput n "Iterations" = Except.ok (Value.int k) := by
      simp [Node.readInput, hits, InputInfo.call, his, hiv]
    have hrs : Node.readInput ({ n with inProgress := k + 1 } : Node) "Start"
        = Except.ok stt.value := by
      simp [Node.readInput, hstt, InputInfo.call, hss]
    unfold Loop.run
    dsimp only
    rw [if_neg (show ¬ n.inProgress > 1 by omega)]
    rw [hrc]
    dsimp only
    rw [hri]
    dsimp only [Value.asInt]
    rw [hrs]
    dsimp only
    unfold Node.writeOutput
    dsimp only
    rw [hlb]
    dsimp only
    refine ⟨rfl, rfl, ?_⟩
    rw [lookupInfo_updateInfo_self n.outputs "LoopBody"
          (fun o => OutputInfo.call o stt.value) (fun o _ => rfl), hlb]
    rfl
  · intro n ctl lb h1 hctl hcs hlb
    have hrc : Node.readInput n "Control" = Except.ok ctl.value := by
      simp [Node.readInput, hctl, InputInfo.call, hcs]
    unfold Loop.run
    dsimp only
    rw [if_pos h1]
    rw [hrc]
    dsimp only
    unfold Node.writeOutput
    rw [hlb]
    dsimp only
    refine ⟨rfl, rfl, ?_⟩
    rw [lookupInfo_updateInfo_self n.outputs "LoopBody"
          (fun o => OutputInfo.call o ctl.value) (fun o _ => rfl), hlb]
    rfl
  · intro n ctl fin h1 hctl hcs hfin
    have hrc : Node.readInput n "Control" = Except.ok ctl.value := by
      simp [Node.readInput, hctl, InputInfo.call, hcs]
    unfold Loop.run
    dsimp only
    rw [if_neg (show ¬ n.inProgress > 1 by omega)]
    rw [hrc]
    dsimp only
    unfold Node.writeOutput
    rw [hfin]
    dsimp only
    refine ⟨rfl, rfl, ?_, ?_⟩
    · rw [lookupInfo_updateInfo_self n.outputs "Final"
            (fun o => OutputInfo.call o ctl.value) (fun o _ => rfl), hfin]
      rfl
    · rw [lookupInfo_updateInfo_ne n.outputs "LoopBody" "Final"
            (fun o => OutputInfo.call o ctl.value) (fun o _ => rfl) (by decide)]

/-- Closed instance of `loop_run_phases` covering all three phases on
concrete loop nodes (first run, mid-iteration, final run). -/
theorem loop_run_phases_app :
    ((Loop.run (Node.mk "L"
        [{ name := "Start", valueSet := true, value := Value.int 0 },
         { name := "Control" },
         { name := "Iterations", varType := "int", valueSet := true, value := Value.int 3 }]
        [{ name := "Final" }, { name := "LoopBody" }] 1 false)).2 = Option.none ∧
     (Loop.run (Node.mk "L"
        [{ name := "Start", valueSet := true, value := Value.int 0 },
         { name := "Control" },
         { name := "Iterations", varType := "int", valueSet := true, value := Value.int 3 }]
        [{ name := "Final" }, { name := "LoopBody" }] 1 false)).1.inProgress = 3 + 1 ∧
     lookupInfo (Loop.run (Node.mk "L"
        [{ name := "Start", valueSet := true, value := Value.int 0 },
         { name := "Control" },
         { name := "Iterations", varType := "int", valueSet := true, value := Value.int 3 }]
        [{ name := "Final" }, { name := "LoopBody" }] 1 false)).1.outputs "LoopBody"
       = some (OutputInfo.call { name := "LoopBody" }
           ({ name := "Start", valueSet := true, value := Value.int 0 } : Info).value)) ∧
    ((Loop.run (Node.mk "L2"
        [{ name := "Start", valueSet := true, value := Value.int 0 },
         { name := "Control", valueSet := true, value := Value.int 5 },
         { name := "Iterations", varType := "int", valueSet := true, value := Value.int 3 }]
        [{ name := "Final" }, { name := "LoopBody" }] 3 false)).2 = Option.none ∧
     (Loop.run (Node.mk "L2"
        [{ name := "Start", valueSet := true, value := Value.int 0 },
         { name := "Control", valueSet := true, value := Value.int 5 },
         { name := "Iterations", varType := "int", valueSet := true, value := Value.int 3 }]
        [{ name := "Final" }, { name := "LoopBody" }] 3 false)).1.inProgress
       = (Node.mk "L2"
        [{ name := "Start", valueSet := true, value := Value.int 0 },
         { name := "Control", valueSet := true, value := Value.int 5 },
         { name := "Iterations", varType := "int", valueSet := true, value := Value.int 3 }]
        [{ name := "Final" }, { name := "LoopBody" }] 3 false).inProgress ∧
     lookupInfo (Loop.run (Node.mk "L2"
        [{ name := "Start", valueSet := true, value := Value.int 0 },
         { name := "Control", valueSet := true, value := Value.int 5 },
         { name := "Iterations", varType := "int", valueSet := true, value := Value.int 3 }]
        [{ name := "Final" }, { name := "LoopBody" }] 3 false)).1.outputs "LoopBody"
       = some (OutputInfo.call { name := "LoopBody" }
           ({ name := "Control", valueSet := true, value := Value.int 5 } : Info).value)) ∧
    ((Loop.run (Node.mk "L3"
        [{ name := "Start", valueSet := true, value := Value.int 0 },
         { name := "Control", valueSet := true, value := Value.int 9 },
         { name := "Iterations", varType := "int", valueSet := true, value := Value.int 3 }]
        [{ name := "Final" }, { name := "LoopBody" }] 1 false)).2 = Option.none ∧
     (Loop.run (Node.mk "L3"
        [{ name := "Start", valueSet := true, value := Value.int 0 },
         { name := "Control", valueSet := true, value := Value.int 9 },
         { name := "Iterations", varType := "int", valueSet := true, value := Value.int 3 }]
        [{ name := "Final" }, { name := "LoopBody" }] 1 false)).1.inProgress
       = (Node.mk "L3"
        [{ name := "Start", valueSet := true, value := Value.int 0 },
         { name := "Control", valueSet := true, value := Value.int 9 },
         { name := "Iterations", varType := "int", valueSet := true, value := Value.int 3 }]
        [{ name := "Final" }, { name := "LoopBody" }] 1 false).inProgress ∧
     lookupInfo (Loop.run (Node.mk "L3"
        [{ name := "Start", valueSet := true, value := Value.int 0 },
         { name := "Control", valueSet := true, value := Value.int 9 },
         { name := "Iterations", varType := "int", valueSet := true, value := Value.int 3 }]
        [{ name := "Final" }, { name := "LoopBody" }] 1 false)).1.outputs "Final"
       = some (OutputInfo.call { name := "Final" }
           ({ name := "Control", valueSet := true, value := Value.int 9 } : Info).value) ∧
     lookupInfo (Loop.run (Node.mk "L3"
        [{ name := "Start", valueSet := true, value := Value.int 0 },
         { name := "Control", valueSet := true, value := Value.int 9 },
         { name := "Iterations", varType := "int", valueSet := true, value := Value.int 3 }]
        [{ name := "Final" }, { name := "LoopBody" }] 1 false)).1.outputs "LoopBody"
       = lookupInfo (Node.mk "L3"
        [{ name := "Start", valueSet := true, value := Value.int 0 },
         { name := "Control", valueSet := true, value := Value.int 9 },
         { name := "Iterations", varType := "int", valueSet := true, value := Value.int 3 }]
        [{ name := "Final" }, { name := "LoopBody" }] 1 false).outputs "LoopBody") :=
  ⟨loop_run_phases.1 (Node.mk "L"
      [{ name := "Start", valueSet := true, value := Value.int 0 },
       { name := "Control" },
       { name := "Iterations", varType := "int", valueSet := true, value := Value.int 3 }]
      [{ name := "Final" }, { name := "LoopBody" }] 1 false)
      { name := "Control" }
      { name := "Iterations", varType := "int", valueSet := true, value := Value.int 3 }
      { name := "Start", valueSet := true, value := Value.int 0 }
      { name := "LoopBody" } 3
      (by decide) (by decide) (by decide) (by decide) (by decide) (by decide)
      (by decide) (by decide) (by decide) (by decide),
   loop_run_phases.2.1 (Node.mk "L2"
      [{ name := "Start", valueSet := true, value := Value.int 0 },
       { name := "Control", valueSet := true, value := Value.int 5 },
       { name := "Iterations", varType := "int", valueSet := true, value := Value.int 3 }]
      [{ name := "Final" }, { name := "LoopBody" }] 3 false)
      { name := "Control", valueSet := true, value := Value.int 5 }
      { name := "LoopBody" }
      (by decide) (by decide) (by decide) (by decide),
   loop_run_phases.2.2 (Node.mk "L3"
      [{ name := "Start", valueSet := true, value := Value.int 0 },
       { name := "Control", valueSet := true, value := Value.int 9 },
       { name := "Iterations", varType := "int", valueSet := true, value := Value.int 3 }]
      [{ name := "Final" }, { name := "LoopBody" }] 1 false)
      { name := "Control", valueSet := true, value := Value.int 9 }
      { name := "Final" }
      (by decide) (by decide) (by decide) (by decide)⟩

/-- C4: while `executionsRemaining > 1`, `Loop.notify` prepares each
`LoopBody` successor and force-sets (`override=true`) its connected
input with `LoopBody`'s value, then decrements `executionsRemaining` by
1 and resets the `Control` slot; when `executionsRemaining = 1` it
instead propagates `Final` with a plain `set` (no `prepare`, no
override) and decrements to 0. -/
theorem loop_notify_phases :
    (∀ (self : Node) (g : List Conn) (store : Store) (lb : Info)
        (con : Conn) (d : Node),
      self.inProgress > 1 →
      lookupInfo self.outputs "LoopBody" = some lb →
      ((connsOfOutput g "LoopBody").map Conn.inputNode).Nodup →
      (Loop.notify self g store).2 = Option.none →
      (con ∈ connsOfOutput g "LoopBody" →
        storeGet store con.inputNode = some d →
        storeGet (Loop.notify self g store).1.2 con.inputNode
          = some (Node.setInput (Node.prepare d) con.inputName lb.value true).1) ∧
      (Loop.notify self g store).1.1.inProgress = self.inProgress - 1 ∧
      lookupInfo (Loop.notify self g store).1.1.inputs "Control"
        = (lookupInfo self.inputs "Control").map Info.reset) ∧
    (∀ (self : Node) (g : List Conn) (store : Store) (fin : Info)
        (con : Conn) (d : Node),
      self.inProgress = 1 →
      lookupInfo self.outputs "Final" = some fin →
      ((connsOfOutput g "Final").map Conn.inputNode).Nodup →
      (Loop.notify self g store).2 = Option.none →
      (con ∈ connsOfOutput g "Final" →
        storeGet store con.inputNode = some d →
        storeGet (Loop.notify self g store).1.2 con.inputNode
          = some (Node.setInput d con.inputName fin.value false).1) ∧
      (Loop.notify self g store).1.1.inProgress = 0) := by
  constructor
  · intro self g store lb con d hgt hlb hnd hok
    unfold Loop.notify at hok ⊢
    dsimp only at hok ⊢
    rw [if_pos hgt] at hok ⊢
    rw [hlb] at hok ⊢
    dsimp only at hok ⊢
    cases hprop : propLoop self.outputs loopBodyStep (connsOfOutput g "LoopBody") store with
    | mk st' e =>
      rw [hprop] at hok
      cases e with
      | some err =>
        exfalso
        dsimp only at hok
        simp at hok
      | none =>
        dsimp only at hok ⊢
        refine ⟨?_, rfl, ?_⟩
        · intro hcon hd
          have houtc : lookupInfo self.outputs con.outputName = some lb := by
            rw [connsOfOutput_outputName hcon]; exact hlb
          have hmem := propLoop_get_mem self.outputs loopBodyStep con d lb houtc
            (connsOfOutput g "LoopBody") store hnd hcon hd (by rw [hprop])
          rw [hprop] at hmem
          dsimp only at hmem
          exact hmem
        · rw [lookupInfo_updateInfo_self self.inputs "Control" Info.reset
                (fun i _ => rfl)]
  · intro self g store fin con d h1 hfin hnd hok
    unfold Loop.notify at hok ⊢
    dsimp only at hok ⊢
    rw [if_neg (show ¬ self.inProgress > 1 by omega)] at hok ⊢
    rw [hfin] at hok ⊢
    dsimp only at hok ⊢
    cases hprop : propLoop self.outputs pushValueStep (connsOfOutput g "Final") store with
    | mk st' e =>
      rw [hprop] at hok
      cases e with
      | some err =>
        exfalso
        dsimp only at hok
        simp at hok
      | none =>
        dsimp only at hok ⊢
        refine ⟨?_, by omega⟩
        intro hcon hd
        have houtc : lookupInfo self.outputs con.outputName = some fin := by
          rw [connsOfOutput_outputName hcon]; exact hfin
        have hmem := propLoop_get_mem self.outputs pushValueStep con d fin houtc
          (connsOfOutput g "Final") store hnd hcon hd (by rw [hprop])
        rw [hprop] at hmem
        dsimp only at hmem
        exact hmem

/-- Closed instance of `loop_notify_phases`: mid-loop (counter 3) the body
successor `B` is prepared and force-set with `LoopBody = 7`; at
termination (counter 1) the `Final` successor `C` receives 9 and the
counter drops to 0. -/
theorem loop_notify_phases_app :
    ((Conn.mk "LoopBody" "B" "In"
        ∈ connsOfOutput [Conn.mk "LoopBody" "B" "In"] "LoopBody" →
      storeGet [("B", Node.mk "B"
          [{ name := "In", valueSet := true, value := Value.int 1 }] [] 0 false)]
        (Conn.mk "LoopBody" "B" "In").inputNode
        = some (Node.mk "B"
            [{ name := "In", valueSet := true, value := Value.int 1 }] [] 0 false) →
      storeGet (Loop.notify
          (Node.mk "L"
            [{ name := "Start", valueSet := true, value := Value.int 0 },
             { name := "Control", valueSet := true, value := Value.int 5 },
             { name := "Iterations", varType := "int", valueSet := true, value := Value.int 3 }]
            [{ name := "Final" },
             { name := "LoopBody", valueSet := true, value := Value.int 7 }] 3 false)
          [Conn.mk "LoopBody" "B" "In"]
          [("B", Node.mk "B"
              [{ name := "In", valueSet := true, value := Value.int 1 }] [] 0 false)]).1.2
        (Conn.mk "LoopBody" "B" "In").inputNode
        = some (Node.setInput
            (Node.prepare (Node.mk "B"
              [{ name := "In", valueSet := true, value := Value.int 1 }] [] 0 false))
            (Conn.mk "LoopBody" "B" "In").inputName
            ({ name := "LoopBody", valueSet := true, value := Value.int 7 } : Info).value
            true).1) ∧
     (Loop.notify
          (Node.mk "L"
            [{ name := "Start", valueSet := true, value := Value.int 0 },
             { name := "Control", valueSet := true, value := Value.int 5 },
             { name := "Iterations", varType := "int", valueSet := true, value := Value.int 3 }]
            [{ name := "Final" },
             { name := "LoopBody", valueSet := true, value := Value.int 7 }] 3 false)
          [Conn.mk "LoopBody" "B" "In"]
          [("B", Node.mk "B"
              [{ name := "In", valueSet := true, value := Value.int 1 }] [] 0 false)]).1.1.inProgress
        = (Node.mk "L"
            [{ name := "Start", valueSet := true, value := Value.int 0 },
             { name := "Control", valueSet := true, value := Value.int 5 },
             { name := "Iterations", varType := "int", valueSet := true, value := Value.int 3 }]
            [{ name := "Final" },
             { name := "LoopBody", valueSet := true, value := Value.int 7 }] 3 false).inProgress - 1 ∧
     lookupInfo (Loop.notify
          (Node.mk "L"
            [{ name := "Start", valueSet := true, value := Value.int 0 },
             { name := "Control", valueSet := true, value := Value.int 5 },
             { name := "Iterations", varType := "int", valueSet := true, value := Value.int 3 }]
            [{ name := "Final" },
             { name := "LoopBody", valueSet := true, value := Value.int 7 }] 3 false)
          [Conn.mk "LoopBody" "B" "In"]
          [("B", Node.mk "B"
              [{ name := "In", valueSet := true, value := Value.int 1 }] [] 0 false)]).1.1.inputs
        "Control"
        = (lookupInfo (Node.mk "L"
            [{ name := "Start", valueSet := true, value := Value.int 0 },
             { name := "Control", valueSet := true, value := Value.int 5 },
             { name := "Iterations", varType := "int", valueSet := true, value := Value.int 3 }]
            [{ name := "Final" },
             { name := "LoopBody", valueSet := true, value := Value.int 7 }] 3 false).inputs
            "Control").map Info.reset) ∧
    ((Conn.mk "Final" "C" "In"
        ∈ connsOfOutput [Conn.mk "Final" "C" "In"] "Final" →
      storeGet [("C", Node.mk "C" [{ name := "In" }] [] 1 false)]
        (Conn.mk "Final" "C" "In").inputNode
        = some (Node.mk "C" [{ name := "In" }] [] 1 false) →
      storeGet (Loop.notify
          (Node.mk "L2"
            [{ name := "Start", valueSet := true, value := Value.int 0 },
             { name := "Control", valueSet := true, value := Value.int 9 },
             { name := "Iterations", varType := "int", valueSet := true, value := Value.int 3 }]
            [{ name := "Final", valueSet := true, value := Value.int 9 },
             { name := "LoopBody", valueSet := true, value := Value.int 7 }] 1 false)
          [Conn.mk "Final" "C" "In"]
          [("C", Node.mk "C" [{ name := "In" }] [] 1 false)]).1.2
        (Conn.mk "Final" "C" "In").inputNode
        = some (Node.setInput (Node.mk "C" [{ name := "In" }] [] 1 false)
            (Conn.mk "Final" "C" "In").inputName
            ({ name := "Final", valueSet := true, value := Value.int 9 } : Info).value
            false).1) ∧
     (Loop.notify
          (Node.mk "L2"
            [{ name := "Start", valueSet := true, value := Value.int 0 },
             { name := "Control", valueSet := true, value := Value.int 9 },
             { name := "Iterations", varType := "int", valueSet := true, value := Value.int 3 }]
            [{ name := "Final", valueSet := true, value := Value.int 9 },
             { name := "LoopBody", valueSet := true, value := Value.int 7 }] 1 false)
          [Conn.mk "Final" "C" "In"]
          [("C", Node.mk "C" [{ name := "In" }] [] 1 false)]).1.1.inProgress = 0) :=
  ⟨loop_notify_phases.1
      (Node.mk "L"
        [{ name := "Start", valueSet := true, value := Value.int 0 },
         { name := "Control", valueSet := true, value := Value.int 5 },
         { name := "Iterations", varType := "int", valueSet := true, value := Value.int 3 }]
        [{ name := "Final" },
         { name := "LoopBody", valueSet := true, value := Value.int 7 }] 3 false)
      [Conn.mk "LoopBody" "B" "In"]
      [("B", Node.mk "B"
          [{ name := "In", valueSet := true, value := Value.int 1 }] [] 0 false)]
      { name := "LoopBody", valueSet := true, value := Value.int 7 }
      (Conn.mk "LoopBody" "B" "In")
      (Node.mk "B" [{ name := "In", valueSet := true, value := Value.int 1 }] [] 0 false)
      (by decide) (by decide) (by decide) (by decide),
   loop_notify_phases.2
      (Node.mk "L2"
        [{ name := "Start", valueSet := true, value := Value.int 0 },
         { name := "Control", valueSet := true, value := Value.int 9 },
         { name := "Iterations", varType := "int", valueSet := true, value := Value.int 3 }]
        [{ name := "Final", valueSet := true, value := Value.int 9 },
         { name := "LoopBody", valueSet := true, value := Value.int 7 }] 1 false)
      [Conn.mk "Final" "C" "In"]
      [("C", Node.mk "C" [{ name := "In" }] [] 1 false)]
      { name := "Final", valueSet := true, value := Value.int 9 }
      (Conn.mk "Final" "C" "In")
      (Node.mk "C" [{ name := "In" }] [] 1 false)
      (by decide) (by decide) (by decide) (by decide)⟩

/-- A slot declaration collected by `MetaNode.addInput` /
`MetaNode.addOutput` (lines 85-105): name, semantic type and optional
default (Python default `''`). -/
structure SlotDecl where
  name : String
  varType : String
  default : Value := Value.str ""
deriving DecidableEq, Repr

/-- `Node._addInput` (lines 233-235): build the slot template from a
declaration (fresh flags, Python `value = None`, no owner yet). -/
def mkInfo (d : SlotDecl) : Info :=
  { name := d.name, varType := d.varType, default := d.default,
    valueSet := false, value := Value.none, owner := "" }

/-- `OrderedDict` assignment `cls.__inputs__[name] = info`: overwrite in
place when the key already exists, else append at the end. -/
def odInsert (m : List Info) (i : Info) : List Info :=
  if m.any (fun j => j.name = i.name) then
    m.map (fun j => if j.name = i.name then i else j)
  else m ++ [i]

/-- `MetaNode.__new__` (lines 107-124): copy the nearest ancestor's
ordered template table (`__bases__[0].__inputs__.copy()`, empty for a
root type), then insert this class body's own declarations in order. -/
def mergeDecls (parent : List Info) (decls : List SlotDecl) : List Info :=
  decls.foldl (fun m d => odInsert m (mkInfo d)) parent

/-- `Node.__init__` (lines 141-164): clone every declared template
(`copy(inp)` then `inp.setOwner(self)`) into a fresh slot bound to the
new instance, preserving declaration order; `inProgress` starts at 1. -/
def instantiate (nodeID : String) (inTmpls outTmpls : List Info) : Node :=
  { id := nodeID,
    inputs := inTmpls.map (fun i => { i with owner := nodeID }),
    outputs := outTmpls.map (fun i => { i with owner := nodeID }),
    inProgress := 1, waiting := false }

/-- C8: a node type with ordered inputs `{A, B}` and a subtype adding
`{C}` yields, at instantiation, a node whose input mapping is exactly
the slots `A, B, C` in that order — inherited first, then the subtype's
own — each a fresh clone of its declaration (pristine flags) bound to
the new instance. -/
theorem subtype_slot_merge_order (a b c : SlotDecl) (nid : String)
    (hab : a.name ≠ b.name) (hac : a.name ≠ c.name) (hbc : b.name ≠ c.name) :
    (instantiate nid (mergeDecls (mergeDecls [] [a, b]) [c]) []).inputs
      = [{ mkInfo a with owner := nid },
         { mkInfo b with owner := nid },
         { mkInfo c with owner := nid }] ∧
    (instantiate nid (mergeDecls (mergeDecls [] [a, b]) [c]) []).inputs.map Info.name
      = [a.name, b.name, c.name] ∧
    ∀ i ∈ (instantiate nid (mergeDecls (mergeDecls [] [a, b]) [c]) []).inputs,
      i.valueSet = false ∧ i.value = Value.none ∧ i.owner = nid := by
  have hba : ¬ (a.name = b.name) := hab
  have h1 : mergeDecls [] [a, b] = [mkInfo a, mkInfo b] := by
    simp [mergeDecls, odInsert, mkInfo, hba]
  have h2 : mergeDecls (mergeDecls [] [a, b]) [c]
      = [mkInfo a, mkInfo b, mkInfo c] := by
    rw [h1]
    simp [mergeDecls, odInsert, mkInfo, hac, hbc]
  have h3 : (instantiate nid (mergeDecls (mergeDecls [] [a, b]) [c]) []).inputs
      = [{ mkInfo a with owner := nid },
         { mkInfo b with owner := nid },
         { mkInfo c with owner := nid }] := by
    unfold instantiate
    rw [h2]
    rfl
  refine ⟨h3, ?_, ?_⟩
  · rw [h3]; rfl
  · rw [h3]
    intro i hi
    simp only [List.mem_cons, List.not_mem_nil, or_false] at hi
    rcases hi with rfl | rfl | rfl
    · exact ⟨rfl, rfl, rfl⟩
    · exact ⟨rfl, rfl, rfl⟩
    · exact ⟨rfl, rfl, rfl⟩

/-- Closed instance of `subtype_slot_merge_order` with the spec's example
declarations `{A: int default 0, B: str}` plus subtype `{C: bool}`. -/
theorem subtype_slot_merge_order_app :
    (instantiate "n1"
        (mergeDecls (mergeDecls [] [SlotDecl.mk "A" "int" (Value.int 0),
                                    SlotDecl.mk "B" "str" (Value.str "")])
          [SlotDecl.mk "C" "bool" (Value.str "")]) []).inputs
      = [{ mkInfo (SlotDecl.mk "A" "int" (Value.int 0)) with owner := "n1" },
         { mkInfo (SlotDecl.mk "B" "str" (Value.str "")) with owner := "n1" },
         { mkInfo (SlotDecl.mk "C" "bool" (Value.str "")) with owner := "n1" }] ∧
    (instantiate "n1"
        (mergeDecls (mergeDecls [] [SlotDecl.mk "A" "int" (Value.int 0),
                                    SlotDecl.mk "B" "str" (Value.str "")])
          [SlotDecl.mk "C" "bool" (Value.str "")]) []).inputs.map Info.name
      = ["A", "B", "C"] ∧
    ∀ i ∈ (instantiate "n1"
        (mergeDecls (mergeDecls [] [SlotDecl.mk "A" "int" (Value.int 0),
                                    SlotDecl.mk "B" "str" (Value.str "")])
          [SlotDecl.mk "C" "bool" (Value.str "")]) []).inputs,
      i.valueSet = false ∧ i.value = Value.none ∧ i.owner = "n1" :=
  subtype_slot_merge_order
    (SlotDecl.mk "A" "int" (Value.int 0))
    (SlotDecl.mk "B" "str" (Value.str ""))
    (SlotDecl.mk "C" "bool" (Value.str ""))
    "n1" (by decide) (by decide) (by decide)

/-- Closed instance of `input_set_atomic_failure` at a concrete already-set
slot. -/
theorem input_set_atomic_failure_app :
    InputInfo.set
      { name := "X", valueSet := true, value := Value.int 3 }
      (Value.int 9) false
    = ({ name := "X", valueSet := true, value := Value.int 3 },
       some Exc.inputAlreadySet) :=
  input_set_atomic_failure
    { name := "X", valueSet := true, value := Value.int 3 }
    (Value.int 9) (by decide)

end Floppy
